import Mathlib

/-!
Verification development for the `waiting` PTY supervisor.

Shallow embedding of the core components:
* `Waiting.strip_ansi` / `Waiting.matches_prompt_pattern` — from `waiting/utils.py`
* `Waiting.BlockedState`, `Waiting.is_any_process_blocked_on_tty` — from
  `waiting/process_state.py`
* `Waiting.WaitDetector` with its operations — from `waiting/detector.py`
* `Waiting.run` exit-code mapping — from `waiting/runner.py`

Time is modelled as the rationals (monotonic-clock seconds); strings are
modelled at the post-UTF-8-decode level as `List Char` (the decode in
`record_output` is lossy and total, using replacement characters); external effects
(the `/proc` blocked-state query, the platform test) enter as explicit
parameters; the `on_event` callback is modelled by returning the list of
emitted events.
-/

namespace Waiting

/-! ## Text utilities (waiting/utils.py) -/

/-- Python `str.strip()` whitespace at the ASCII level: space, tab,
newline, carriage return, vertical tab and form feed. -/
def isSpaceChar (c : Char) : Bool :=
  c = ' ' || c = '\t' || c = '\n' || c = '\r' || c = '\x0b' || c = '\x0c'

/-- Python `str.strip()`: drop leading and trailing whitespace. -/
def pyStrip (l : List Char) : List Char :=
  ((l.dropWhile isSpaceChar).reverse.dropWhile isSpaceChar).reverse

/-- Parameter bytes of a CSI sequence: `[0-9;?>=]` in `_ANSI_PATTERN`. -/
def isCsiParam (c : Char) : Bool :=
  c.isDigit || c = ';' || c = '?' || c = '>' || c = '='

/-- Final byte of a CSI sequence: `[a-zA-Z]`. -/
def isCsiFinal (c : Char) : Bool :=
  c.isAlpha

/-- Character-set selection second byte: `[AB012]`. -/
def isCharsetChar (c : Char) : Bool :=
  c = 'A' || c = 'B' || c = '0' || c = '1' || c = '2'

/-- Single-character escapes: the class `[@-Z\\^_]`. -/
def isSingleEscChar (c : Char) : Bool :=
  ('@' ≤ c && c ≤ 'Z') || c = '\\' || c = '^' || c = '_'

/-- Terminator of an OSC body: BEL, or ESC followed by backslash. -/
def oscTerminated : List Char → Option (List Char)
  | '\x07' :: r => some r
  | '\x1b' :: '\\' :: r => some r
  | _ => none

/-- Try to match the body of `_ANSI_PATTERN` right after an ESC character;
returns the remaining input on success.  The four alternatives of the
source regex dispatch on their distinct first characters, and each greedy
star is over a class disjoint from its follow set, so matching is
deterministic (no backtracking). -/
def ansiMatch : List Char → Option (List Char)
  | '[' :: rest =>
    match rest.dropWhile isCsiParam with
    | c :: r => if isCsiFinal c then some r else none
    | [] => none
  | ']' :: rest =>
    oscTerminated (rest.dropWhile (fun c => !(c = '\x07' || c = '\x1b')))
  | c :: rest =>
    if c = '(' || c = ')' then
      match rest with
      | d :: r => if isCharsetChar d then some r else none
      | [] => none
    else if isSingleEscChar c then some rest
    else none
  | [] => none

/-- The `re.sub` scan for `_ANSI_PATTERN`: at each position, if an ESC starts a
match, delete it and continue after the match; otherwise keep the character.
`fuel` only bounds the recursion; `fuel = length` always suffices since
every step consumes at least one character. -/
def stripAnsiAux : Nat → List Char → List Char
  | 0, l => l
  | _ + 1, [] => []
  | fuel + 1, c :: rest =>
    if c = '\x1b' then
      match ansiMatch rest with
      | some r => stripAnsiAux fuel r
      | none => c :: stripAnsiAux fuel rest
    else
      c :: stripAnsiAux fuel rest

/-- Source `strip_ansi` on character lists. -/
def stripAnsiList (l : List Char) : List Char :=
  stripAnsiAux l.length l

/-- Source `strip_ansi(text)`: remove ANSI escape codes from text. -/
def strip_ansi (s : String) : String :=
  String.mk (stripAnsiList s.data)

/-- Does `needle` occur at the head of the list? -/
def headMatches : List Char → List Char → Bool
  | [], _ => true
  | _ :: _, [] => false
  | p :: ps, c :: cs => p = c && headMatches ps cs

/-- Does `needle` occur as a contiguous run anywhere in the list?
(`re.search` for a literal pattern.) -/
def containsSub (needle : List Char) : List Char → Bool
  | [] => needle.isEmpty
  | c :: rest => headMatches needle (c :: rest) || containsSub needle rest

/-- Matching `kw\s*:?\s*$` (a `re.search`) on an already-lowercased line: from the
end, strip whitespace, one optional colon, whitespace again, and require
the keyword there. -/
def endAnchor (kw : List Char) (l : List Char) : Bool :=
  let r0 := l.reverse.dropWhile isSpaceChar
  let r1 :=
    match r0 with
    | ':' :: r => r.dropWhile isSpaceChar
    | _ => r0
  headMatches kw.reverse r1

/-- Matching `\(default[^)]*\)\s*:?\s*$` (a `re.search`) on an already-lowercased
line: after discounting the optional `\s*:?\s*` tail there must be a
closing parenthesis, and `(default` must occur after the last `)` of what
precedes it. -/
def matchesDefaultAtEnd (l : List Char) : Bool :=
  let r0 := l.reverse.dropWhile isSpaceChar
  let r1 :=
    match r0 with
    | ':' :: r => r.dropWhile isSpaceChar
    | _ => r0
  match r1 with
  | ')' :: r2 =>
    containsSub "(default".data ((r2.takeWhile (fun c => c ≠ ')')).reverse)
  | _ => false

/-- Search of `_PROMPT_REGEX` (case-insensitive alternation of
`_PROMPT_PATTERNS`) over a cleaned (ANSI-stripped, trimmed) line.
Case-insensitivity is realised by lowercasing; `[Y/n]` and `[y/N]`
collapse to the same lowercased literal.  The shell-prompt pattern
`^\s*[$#>]\s*$` on a trimmed line is equality with the bare character. -/
def promptSearch (cl : List Char) : Bool :=
  let low := cl.map Char.toLower
  containsSub "[y/n]".data low ||
  containsSub "[yes/no]".data low ||
  containsSub "(y/n)".data low ||
  containsSub "(yes/no)".data low ||
  endAnchor "password".data low ||
  containsSub "❯".data low ||
  containsSub "◯".data low ||
  containsSub "◉".data low ||
  containsSub "☐".data low ||
  containsSub "☑".data low ||
  containsSub "do you want to".data low ||
  containsSub "would you like".data low ||
  containsSub "press enter".data low ||
  containsSub "hit enter".data low ||
  containsSub "type here".data low ||
  containsSub "confirm?".data low ||
  containsSub "approve?".data low ||
  containsSub "proceed?".data low ||
  containsSub "continue?".data low ||
  containsSub "overwrite?".data low ||
  matchesDefaultAtEnd low ||
  decide (low = "$".data) || decide (low = "#".data) || decide (low = ">".data)

/-- Source `matches_prompt_pattern(line)`: strip ANSI, trim, empty → false, else
search the prompt regex. -/
def matches_prompt_pattern (line : List Char) : Bool :=
  let cleaned := pyStrip (stripAnsiList line)
  if cleaned.isEmpty then false
  else promptSearch cleaned

/-! ## Process-state introspection (waiting/process_state.py)

The per-pid classification (`get_blocked_state_linux`, which reads
`/proc/<pid>/stat` and `/proc/<pid>/wchan`) and the descendant walk
(`get_descendant_pids_linux`) perform file-system reads; they enter the
embedding as parameters: a classification function `f : Nat → BlockedState`
and the descendant list. -/

/-- State of a process with respect to input blocking. -/
inductive BlockedState where
  | UNKNOWN
  | NOT_BLOCKED
  | BLOCKED_TTY_READ
  | BLOCKED_SELECT
deriving DecidableEq

/-- The loop of `is_any_process_blocked_on_tty` over the pid list, with the
`found_select` / `found_unknown` accumulators: short-circuit on the first
`BLOCKED_TTY_READ`, otherwise fold and resolve at the end. -/
def aggregateBlocked (f : Nat → BlockedState) :
    List Nat → Bool → Bool → BlockedState
  | [], foundSelect, foundUnknown =>
    if foundSelect then .BLOCKED_SELECT
    else if foundUnknown then .UNKNOWN
    else .NOT_BLOCKED
  | p :: rest, foundSelect, foundUnknown =>
    match f p with
    | .BLOCKED_TTY_READ => .BLOCKED_TTY_READ
    | .BLOCKED_SELECT => aggregateBlocked f rest true foundUnknown
    | .UNKNOWN => aggregateBlocked f rest foundSelect true
    | .NOT_BLOCKED => aggregateBlocked f rest foundSelect foundUnknown

/-- Source `is_any_process_blocked_on_tty(pid)`: UNKNOWN unconditionally off
Linux; otherwise aggregate the classification of the pid and all of its
descendants. -/
def is_any_process_blocked_on_tty (linux : Bool) (f : Nat → BlockedState)
    (pid : Nat) (descendants : List Nat) : BlockedState :=
  if !linux then .UNKNOWN
  else aggregateBlocked f (pid :: descendants) false false

/-! ## Wait detector (waiting/detector.py) -/

/-- Detection thresholds (default values of the env-overridable floats). -/
def STALL_THRESHOLD : ℚ := 30
def NAG_INTERVAL : ℚ := 60
def MIN_ALERT_GAP : ℚ := 1
def USER_IDLE_THRESHOLD : ℚ := 2
def STARTUP_GRACE : ℚ := 3
def TRUE_DETECT_STALL : ℚ := 2

/-- Detector states. -/
inductive State where
  | RUNNING
  | WAITING
deriving DecidableEq

/-- Events delivered to the `on_event` callback. -/
inductive Event where
  | waitingEntered (timestamp : ℚ)
  | waitingExited (timestamp : ℚ) (reason : String)
deriving DecidableEq

/-- The mutable fields of `WaitDetector`. -/
structure WaitDetector where
  state : State
  lastOutputTime : ℚ
  lastInputTime : ℚ
  startupTime : ℚ
  lastVisibleLine : List Char
  lastAlertTime : ℚ
  waitingSince : Option ℚ
  childPid : Option Nat
  useTrueDetection : Bool
deriving DecidableEq

/-- Constructor `WaitDetector.__init__`: all clocks read `now`; true detection is on
exactly when the platform is Linux and a child pid was passed
(`child_pid is not None`). -/
def initDetector (now : ℚ) (childPid : Option Nat) (linux : Bool) :
    WaitDetector :=
  { state := .RUNNING
    lastOutputTime := now
    lastInputTime := now
    startupTime := now
    lastVisibleLine := []
    lastAlertTime := 0
    waitingSince := none
    childPid := childPid
    useTrueDetection := linux && childPid.isSome }

/-- Source `_transition_to_waiting`. -/
def _transition_to_waiting (st : WaitDetector) (now : ℚ) :
    WaitDetector × List Event :=
  ({ st with state := .WAITING, waitingSince := some now },
   [.waitingEntered now])

/-- Source `_transition_to_running`. -/
def _transition_to_running (st : WaitDetector) (now : ℚ) (reason : String) :
    WaitDetector × List Event :=
  ({ st with state := .RUNNING, waitingSince := none },
   [.waitingExited now reason])

/-- Python split on the newline character, as in `record_output`: every
newline separates lines, empty pieces included. -/
def splitOnNl : List Char → List (List Char)
  | [] => [[]]
  | '\n' :: rest => [] :: splitOnNl rest
  | c :: rest =>
    match splitOnNl rest with
    | l :: ls => (c :: l) :: ls
    | [] => [[c]]

/-- The cleaned form of a raw line: strip ANSI codes first, then
whitespace. -/
def visibleOf (line : List Char) : List Char :=
  pyStrip (stripAnsiList line)

/-- The scan of `record_output` over `reversed(lines)`: the first line
whose cleaned form is non-empty with length `> 1`, in that cleaned form. -/
def firstQualifying : List (List Char) → Option (List Char)
  | [] => none
  | line :: rest =>
    let visible := visibleOf line
    if !visible.isEmpty && decide (1 < visible.length) then some visible
    else firstQualifying rest

/-- Source `record_output(data)`: update `last_output_time`, adopt the last
qualifying visible line if any, and leave WAITING on any output. -/
def record_output (st : WaitDetector) (now : ℚ) (text : List Char) :
    WaitDetector × List Event :=
  let st1 := { st with lastOutputTime := now }
  let st2 : WaitDetector :=
    match firstQualifying (splitOnNl text).reverse with
    | some v => { st1 with lastVisibleLine := v }
    | none => st1
  if st2.state = .WAITING then _transition_to_running st2 now "output"
  else (st2, [])

/-- Source `record_input()`. -/
def record_input (st : WaitDetector) (now : ℚ) : WaitDetector × List Event :=
  let st1 := { st with lastInputTime := now }
  if st1.state = .WAITING then _transition_to_running st1 now "input"
  else (st1, [])

/-- Python truthiness of `self.child_pid` (None and 0 are falsy). -/
def childPidTruthy : Option Nat → Bool
  | some p => decide (p ≠ 0)
  | none => false

/-- Python truthiness of `self.waiting_since` combined with the recency
test `now - self.waiting_since < 0.1` (0.0 is falsy). -/
def waitingSinceRecent (ws : Option ℚ) (now : ℚ) : Bool :=
  match ws with
  | some w => decide (w ≠ 0) && decide (now - w < 1 / 10)
  | none => false

/-- The heuristic tail of `_check_waiting`: stall at least
`STALL_THRESHOLD` and a prompt-pattern match on the last visible line. -/
def heuristicWaiting (st : WaitDetector) (now : ℚ) : Bool :=
  if now - st.lastOutputTime < STALL_THRESHOLD then false
  else matches_prompt_pattern st.lastVisibleLine

/-- Source `_check_waiting(pty_fd, now)`: the blocked-state query result `bs`
stands for `is_any_process_blocked_on_tty(self.child_pid)`. -/
def _check_waiting (st : WaitDetector) (ptyFd : Int) (now : ℚ)
    (bs : BlockedState) : Bool :=
  if now - st.startupTime < STARTUP_GRACE then false
  else if st.useTrueDetection && childPidTruthy st.childPid then
    match bs with
    | .BLOCKED_TTY_READ =>
      if TRUE_DETECT_STALL ≤ now - st.lastOutputTime then true else false
    | .NOT_BLOCKED => false
    | .BLOCKED_SELECT =>
      if TRUE_DETECT_STALL ≤ now - st.lastOutputTime then
        matches_prompt_pattern st.lastVisibleLine
      else false
    | .UNKNOWN => heuristicWaiting st now
  else heuristicWaiting st now

/-- Source `_should_alert(now)`: returns the decision and the (possibly updated)
detector. -/
def _should_alert (st : WaitDetector) (now : ℚ) : Bool × WaitDetector :=
  if now - st.lastInputTime < USER_IDLE_THRESHOLD then (false, st)
  else if now - st.lastAlertTime < MIN_ALERT_GAP then (false, st)
  else if waitingSinceRecent st.waitingSince now then
    (true, { st with lastAlertTime := now })
  else if NAG_INTERVAL ≤ now - st.lastAlertTime then
    (true, { st with lastAlertTime := now })
  else (false, st)

/-- Source `check(pty_fd)`: returns whether to alert, the new detector, and the
events emitted. -/
def check (st : WaitDetector) (ptyFd : Int) (now : ℚ) (bs : BlockedState) :
    Bool × WaitDetector × List Event :=
  let isWaiting := _check_waiting st ptyFd now bs
  if isWaiting = true ∧ st.state = .RUNNING then
    let stev := _transition_to_waiting st now
    let ba := _should_alert stev.1 now
    (ba.1, ba.2, stev.2)
  else if isWaiting = true ∧ st.state = .WAITING then
    let ba := _should_alert st now
    (ba.1, ba.2, [])
  else if isWaiting = false ∧ st.state = .WAITING then
    let stev := _transition_to_running st now "output"
    (false, stev.1, stev.2)
  else (false, st, [])

/-! ## Runner exit-code mapping (waiting/runner.py) -/

/-- Possible fates of one `run` invocation past the fork, abstracting the
OS: exec failures inside `_exec_child`, normal/signalled termination
reaped by `_io_loop`, and a reap failure (`ChildProcessError`). -/
inductive ChildOutcome where
  | execNotFound
  | execPermissionDenied
  | exited (code : Nat)
  | signaled (sig : Nat)
  | reapFailed
deriving DecidableEq

/-- The wait status the parent `waitpid` observes, if any:
`_exec_child` turns a missing command into `sys.exit(127)` and a
non-executable one into `sys.exit(126)`, both ordinary exits. -/
inductive WaitStatus where
  | exitedWith (code : Nat)
  | signaledWith (sig : Nat)
deriving DecidableEq

/-- Via `_exec_child` and termination: the wait status produced by each child
outcome (`none` when the reap itself fails). -/
def childWaitStatus : ChildOutcome → Option WaitStatus
  | .execNotFound => some (.exitedWith 127)
  | .execPermissionDenied => some (.exitedWith 126)
  | .exited c => some (.exitedWith c)
  | .signaled s => some (.signaledWith s)
  | .reapFailed => none

/-- The reap branch of `_io_loop`: `WIFEXITED` → `WEXITSTATUS`,
`WIFSIGNALED` → 128 + signal, `ChildProcessError` → 1. -/
def reapExitCode : Option WaitStatus → Nat
  | some (.exitedWith c) => c
  | some (.signaledWith s) => 128 + s
  | none => 1

/-- Source `Runner.run(command)`: empty command returns 1 with no fork; otherwise
fork and map the fate of the child to an exit code.  The boolean records
whether a fork happened. -/
def run (command : List String) (outcome : ChildOutcome) : Nat × Bool :=
  if command.isEmpty then (1, false)
  else (reapExitCode (childWaitStatus outcome), true)

/-- Sample detector used to witness C1. -/
def sampleDetC1 : WaitDetector :=
  { state := .RUNNING
    lastOutputTime := 0
    lastInputTime := 0
    startupTime := 0
    lastVisibleLine := "Continue? [Y/n]".data
    lastAlertTime := 0
    waitingSince := none
    childPid := some 1
    useTrueDetection := true }

/-- Sample detector used to witness C4. -/
def sampleDetC4 : WaitDetector :=
  { state := .WAITING
    lastOutputTime := 0
    lastInputTime := 0
    startupTime := 0
    lastVisibleLine := []
    lastAlertTime := 0
    waitingSince := some 4
    childPid := none
    useTrueDetection := false }

/-- Operations of a detector, each with the external inputs it consumes:
the time of the call, the decoded output text, and for `check` the pty
file descriptor and the blocked-state query result. -/
inductive DetectorOp where
  | output (now : ℚ) (text : List Char)
  | input (now : ℚ)
  | check (ptyFd : Int) (now : ℚ) (bs : BlockedState)

/-- The detector resulting from one operation. -/
def applyOp (st : WaitDetector) : DetectorOp → WaitDetector
  | .output now text => (record_output st now text).1
  | .input now => (record_input st now).1
  | .check ptyFd now bs => (check st ptyFd now bs).2.1

/-- The C2 invariant: `waiting_since` is set exactly in the WAITING
state. -/
def detectorInvariant (st : WaitDetector) : Prop :=
  st.waitingSince ≠ none ↔ st.state = .WAITING

/-- Following the words of the spec for C5: the last line of the input whose
ANSI-stripped, whitespace-trimmed form has visible length greater than 1,
taken in that cleaned form.  To be compared with the reverse-scan the code
performs. -/
def specLastVisible (lines : List (List Char)) : Option (List Char) :=
  ((lines.map visibleOf).filter fun v => decide (1 < v.length)).getLast?

/-- Sample detector used to witness C9. -/
def sampleDetC9 : WaitDetector :=
  { state := .WAITING
    lastOutputTime := 3
    lastInputTime := 0
    startupTime := 0
    lastVisibleLine := "[y/n]".data
    lastAlertTime := 4
    waitingSince := some 4
    childPid := none
    useTrueDetection := false }


/-! ## Theorems -/

/-- C1: with true detection enabled, a truthy child pid, and the startup
grace period over, `_check_waiting` follows the ordered decision table:
`BLOCKED_TTY_READ` alerts iff the stall is at least `TRUE_DETECT_STALL`;
`NOT_BLOCKED` never alerts; `BLOCKED_SELECT` alerts iff that short stall
elapsed and the last visible line matches a prompt pattern; `UNKNOWN`
falls back to the heuristic (stall at least `STALL_THRESHOLD` and a
prompt-pattern match). -/
theorem check_waiting_true_detection_table (st : WaitDetector) (ptyFd : Int)
    (now : ℚ) (p : Nat)
    (hT : st.useTrueDetection = true) (hP : st.childPid = some p)
    (hp : p ≠ 0) (hg : STARTUP_GRACE ≤ now - st.startupTime) :
    (_check_waiting st ptyFd now .BLOCKED_TTY_READ = true ↔
      TRUE_DETECT_STALL ≤ now - st.lastOutputTime) ∧
    _check_waiting st ptyFd now .NOT_BLOCKED = false ∧
    (_check_waiting st ptyFd now .BLOCKED_SELECT = true ↔
      TRUE_DETECT_STALL ≤ now - st.lastOutputTime ∧
        matches_prompt_pattern st.lastVisibleLine = true) ∧
    (_check_waiting st ptyFd now .UNKNOWN = true ↔
      STALL_THRESHOLD ≤ now - st.lastOutputTime ∧
        matches_prompt_pattern st.lastVisibleLine = true) := by
  have hgr : ¬ (now - st.startupTime < STARTUP_GRACE) := not_lt.mpr hg
  have hc : childPidTruthy st.childPid = true := by
    rw [hP]; exact decide_eq_true hp
  have hguard : (st.useTrueDetection && childPidTruthy st.childPid) = true := by
    rw [hT, hc]; rfl
  refine ⟨?_, ?_, ?_, ?_⟩
  · simp only [_check_waiting, if_neg hgr, hguard, if_true]
    split_ifs with h <;> simp [h]
  · simp only [_check_waiting, if_neg hgr, hguard, if_true]
  · simp only [_check_waiting, if_neg hgr, hguard, if_true]
    split_ifs with h <;> simp [h]
  · simp only [_check_waiting, if_neg hgr, hguard, if_true, heuristicWaiting]
    split_ifs with h
    · simp [not_le.mpr h]
    · simp [not_lt.mp h]

/-- C1 witness: the decision table instantiated at a concrete detector ten
seconds after startup. -/
theorem check_waiting_true_detection_table_witness :
    (_check_waiting sampleDetC1 0 10 .BLOCKED_TTY_READ = true ↔
      TRUE_DETECT_STALL ≤ 10 - sampleDetC1.lastOutputTime) ∧
    _check_waiting sampleDetC1 0 10 .NOT_BLOCKED = false ∧
    (_check_waiting sampleDetC1 0 10 .BLOCKED_SELECT = true ↔
      TRUE_DETECT_STALL ≤ 10 - sampleDetC1.lastOutputTime ∧
        matches_prompt_pattern sampleDetC1.lastVisibleLine = true) ∧
    (_check_waiting sampleDetC1 0 10 .UNKNOWN = true ↔
      STALL_THRESHOLD ≤ 10 - sampleDetC1.lastOutputTime ∧
        matches_prompt_pattern sampleDetC1.lastVisibleLine = true) :=
  check_waiting_true_detection_table sampleDetC1 0 10 1 rfl rfl
    (by decide) (by norm_num [sampleDetC1, STARTUP_GRACE])

/-- C3: during the startup grace period `check` returns false and never
moves the detector from RUNNING into WAITING. -/
theorem check_startup_grace (st : WaitDetector) (ptyFd : Int) (now : ℚ)
    (bs : BlockedState) (hg : now - st.startupTime < STARTUP_GRACE) :
    (check st ptyFd now bs).1 = false ∧
    ((check st ptyFd now bs).2.1.state = .WAITING → st.state = .WAITING) := by
  have h0 : _check_waiting st ptyFd now bs = false := by
    unfold _check_waiting
    rw [if_pos hg]
  unfold check
  rw [h0]
  simp only [Bool.false_eq_true, false_and, if_false, and_true, if_true,
    _transition_to_running]
  split_ifs with h1 h2 <;> simp_all

/-- C3 witness: one second after construction, `check` refuses to alert
even when the child is definitively blocked on TTY read. -/
theorem check_startup_grace_witness :
    (check (initDetector 0 (some 1) true) 0 1 .BLOCKED_TTY_READ).1 = false ∧
    ((check (initDetector 0 (some 1) true) 0 1 .BLOCKED_TTY_READ).2.1.state
        = .WAITING →
      (initDetector 0 (some 1) true).state = .WAITING) :=
  check_startup_grace (initDetector 0 (some 1) true) 0 1 .BLOCKED_TTY_READ
    (by norm_num [initDetector, STARTUP_GRACE])

/-- Helper: a true `_should_alert` records the alert time. -/
theorem shouldAlert_records (st : WaitDetector) (now : ℚ)
    (h : (_should_alert st now).1 = true) :
    ((_should_alert st now).2).lastAlertTime = now := by
  unfold _should_alert at *
  split_ifs at h ⊢ <;> simp_all

/-- Helper: within `MIN_ALERT_GAP` of the last alert, `_should_alert`
returns false. -/
theorem shouldAlert_gap_false (st : WaitDetector) (now : ℚ)
    (h : now - st.lastAlertTime < MIN_ALERT_GAP) :
    (_should_alert st now).1 = false := by
  unfold _should_alert
  split_ifs <;> simp_all

/-- C4: every true return of `_should_alert` records `last_alert_time`;
while `last_alert_time` is within `MIN_ALERT_GAP` of `now` the function
returns false; hence two consecutive calls less than `MIN_ALERT_GAP`
apart never both return true. -/
theorem should_alert_min_gap :
    (∀ st now, (_should_alert st now).1 = true →
      ((_should_alert st now).2).lastAlertTime = now) ∧
    (∀ st now, now - st.lastAlertTime < MIN_ALERT_GAP →
      (_should_alert st now).1 = false) ∧
    (∀ st (t1 t2 : ℚ), t1 < t2 → t2 - t1 < MIN_ALERT_GAP →
      ¬((_should_alert st t1).1 = true ∧
        (_should_alert (_should_alert st t1).2 t2).1 = true)) := by
  refine ⟨shouldAlert_records, shouldAlert_gap_false, ?_⟩
  rintro st t1 t2 _ hgap ⟨h1, h2⟩
  have e1 := shouldAlert_records st t1 h1
  have := shouldAlert_gap_false (_should_alert st t1).2 t2 (by rw [e1]; exact hgap)
  rw [this] at h2
  exact Bool.false_ne_true h2

/-- C4 witness: two calls half a second apart never both alert. -/
theorem should_alert_min_gap_witness :
    ¬((_should_alert sampleDetC4 4).1 = true ∧
      (_should_alert (_should_alert sampleDetC4 4).2 (9 / 2)).1 = true) :=
  should_alert_min_gap.2.2 sampleDetC4 4 (9 / 2) (by norm_num)
    (by norm_num [MIN_ALERT_GAP])

/-- Helper: `_should_alert` touches only `last_alert_time`. -/
theorem shouldAlert_preserves (st : WaitDetector) (now : ℚ) :
    ((_should_alert st now).2).state = st.state ∧
    ((_should_alert st now).2).waitingSince = st.waitingSince := by
  unfold _should_alert
  split_ifs <;> simp

/-- C2: `waiting_since` is non-None iff the state is WAITING; the
invariant holds after construction and is preserved by `record_output`,
`record_input` and `check`. -/
theorem waiting_since_iff_waiting :
    (∀ (now : ℚ) (cp : Option Nat) (lin : Bool),
      detectorInvariant (initDetector now cp lin)) ∧
    (∀ st op, detectorInvariant st → detectorInvariant (applyOp st op)) := by
  constructor
  · intro now cp lin
    simp [detectorInvariant, initDetector]
  · rintro st (⟨now, text⟩ | ⟨now⟩ | ⟨fd, now, bs⟩) h
    · simp only [applyOp, record_output]
      cases hq : firstQualifying (splitOnNl text).reverse <;>
        · simp only [hq]
          split_ifs with hw <;>
            simp_all [detectorInvariant, _transition_to_running]
    · simp only [applyOp, record_input]
      split_ifs with hw <;>
        simp_all [detectorInvariant, _transition_to_running]
    · simp only [applyOp, check]
      split_ifs with h1 h2 h3
      · have hp := shouldAlert_preserves (_transition_to_waiting st now).1 now
        simp only [_transition_to_waiting] at hp ⊢
        simp only [detectorInvariant, hp.1, hp.2]
        simp
      · have hp := shouldAlert_preserves st now
        simp only [detectorInvariant, hp.1, hp.2]
        exact h
      · simp [detectorInvariant, _transition_to_running]
      · exact h

/-- C2 witness: the invariant after one `record_input` on a freshly built
detector, obtained from the preservation theorem. -/
theorem waiting_since_iff_waiting_witness :
    detectorInvariant (applyOp (initDetector 0 none false)
      (DetectorOp.input 1)) :=
  waiting_since_iff_waiting.2 (initDetector 0 none false)
    (DetectorOp.input 1) (waiting_since_iff_waiting.1 0 none false)

/-- Helper: the qualifying test of the code (`visible` truthy and longer than
one character) is just the length test. -/
theorem qualifying_cond (v : List Char) :
    (!v.isEmpty && decide (1 < v.length)) = decide (1 < v.length) := by
  cases v <;> simp

/-- Helper: the forward scan is `head?` of the filtered cleaned lines. -/
theorem firstQualifying_eq_head (ls : List (List Char)) :
    firstQualifying ls =
      ((ls.map visibleOf).filter fun v => decide (1 < v.length)).head? := by
  induction ls with
  | nil => simp [firstQualifying]
  | cons l rest ih =>
    simp only [firstQualifying, qualifying_cond, List.map_cons,
      List.filter_cons]
    by_cases h : 1 < (visibleOf l).length
    · simp [h]
    · simp [h, ih]

/-- Helper: the scan of the code over reversed lines equals the last
qualifying line of the spec. -/
theorem firstQualifying_reverse (ls : List (List Char)) :
    firstQualifying ls.reverse = specLastVisible ls := by
  rw [firstQualifying_eq_head, specLastVisible, List.getLast?_eq_head?_reverse,
    List.map_reverse, List.filter_reverse]

/-- C5: after `record_output`, `last_visible_line` is the last line of the
decoded input whose ANSI-stripped, trimmed form has visible length greater
than 1 (in that cleaned form), and keeps its previous value when no line
qualifies. -/
theorem record_output_last_visible (st : WaitDetector) (now : ℚ)
    (text : List Char) :
    ((record_output st now text).1).lastVisibleLine =
      (specLastVisible (splitOnNl text)).getD st.lastVisibleLine := by
  simp only [record_output, firstQualifying_reverse]
  cases specLastVisible (splitOnNl text) <;>
    · split_ifs <;> simp [_transition_to_running]

/-- C6: the aggregate blocked-state query returns UNKNOWN unconditionally
off Linux; on Linux it returns BLOCKED_TTY_READ exactly when some
evaluated process is definitively blocked on TTY read, otherwise
BLOCKED_SELECT when some process was classified BLOCKED_SELECT, otherwise
UNKNOWN when some was UNKNOWN, otherwise NOT_BLOCKED. -/
theorem any_blocked_on_tty_aggregation (f : Nat → BlockedState) (pid : Nat)
    (descendants : List Nat) :
    is_any_process_blocked_on_tty false f pid descendants = .UNKNOWN ∧
    is_any_process_blocked_on_tty true f pid descendants =
      (if (pid :: descendants).any
          (fun p => decide (f p = .BLOCKED_TTY_READ)) then .BLOCKED_TTY_READ
       else if (pid :: descendants).any
          (fun p => decide (f p = .BLOCKED_SELECT)) then .BLOCKED_SELECT
       else if (pid :: descendants).any
          (fun p => decide (f p = .UNKNOWN)) then .UNKNOWN
       else .NOT_BLOCKED) := by
  have key : ∀ (pids : List Nat) (sel unk : Bool),
      aggregateBlocked f pids sel unk =
        if pids.any (fun p => decide (f p = .BLOCKED_TTY_READ)) then
          .BLOCKED_TTY_READ
        else if sel || pids.any (fun p => decide (f p = .BLOCKED_SELECT)) then
          .BLOCKED_SELECT
        else if unk || pids.any (fun p => decide (f p = .UNKNOWN)) then
          .UNKNOWN
        else .NOT_BLOCKED := by
    intro pids
    induction pids with
    | nil => intro sel unk; simp [aggregateBlocked]
    | cons p rest ih =>
      intro sel unk
      cases hfp : f p <;>
        simp [aggregateBlocked, hfp, ih, Bool.or_assoc, Bool.or_left_comm]
  constructor
  · simp [is_any_process_blocked_on_tty]
  · simp [is_any_process_blocked_on_tty, key]

/-- C7: `strip_ansi` removes the private-mode CSI and SGR-reset sequences
from the sample line, leaving `"Enter your name:"` after trimming; and
`matches_prompt_pattern` rejects the four ordinary-output lines and
accepts the four prompt lines. -/
theorem prompt_and_ansi_examples :
    String.mk (pyStrip
        (stripAnsiList "\x1b[?2026lEnter your name: \x1b[0m".data)) =
      "Enter your name:" ∧
    matches_prompt_pattern "file.ts:123".data = false ∧
    matches_prompt_pattern "12:34:56".data = false ∧
    matches_prompt_pattern "Building: 45%".data = false ∧
    matches_prompt_pattern ">>> import os".data = false ∧
    matches_prompt_pattern "[Y/n]".data = true ∧
    matches_prompt_pattern "Password:".data = true ∧
    matches_prompt_pattern "❯ Yes".data = true ∧
    matches_prompt_pattern "Do you want to continue?".data = true := by
  refine ⟨?_, ?_, ?_, ?_, ?_, ?_, ?_, ?_, ?_⟩ <;> decide

/-- C8: `run` maps outcomes to exit codes: empty command → 1 with no
fork; exec file-not-found → 127; exec permission-denied → 126; a normal
exit propagates the status of the child itself; a signalled exit yields 128 plus
the signal number; a failed reap yields 1. -/
theorem run_exit_code_mapping :
    (∀ o, run [] o = (1, false)) ∧
    (∀ (command : List String), command ≠ [] →
      (∀ c, run command (.exited c) = (c, true)) ∧
      (∀ s, run command (.signaled s) = (128 + s, true)) ∧
      run command .execNotFound = (127, true) ∧
      run command .execPermissionDenied = (126, true) ∧
      run command .reapFailed = (1, true)) := by
  constructor
  · intro o
    simp [run]
  · intro command hne
    have hE : command.isEmpty = false := by
      simpa using hne
    refine ⟨?_, ?_, ?_, ?_, ?_⟩ <;>
      simp [run, hE, reapExitCode, childWaitStatus]

/-- C8 witness: the mapping at a one-word command, for a child exiting
with 42, one killed by signal 9, and the exec failures. -/
theorem run_exit_code_mapping_witness :
    run ["sh"] (.exited 42) = (42, true) ∧
    run ["sh"] (.signaled 9) = (137, true) ∧
    run ["sh"] .execNotFound = (127, true) ∧
    run ["sh"] .execPermissionDenied = (126, true) ∧
    run ["sh"] .reapFailed = (1, true) :=
  ⟨(run_exit_code_mapping.2 ["sh"] (by simp)).1 42,
   (run_exit_code_mapping.2 ["sh"] (by simp)).2.1 9,
   (run_exit_code_mapping.2 ["sh"] (by simp)).2.2.1,
   (run_exit_code_mapping.2 ["sh"] (by simp)).2.2.2.1,
   (run_exit_code_mapping.2 ["sh"] (by simp)).2.2.2.2⟩

/-- C9: from WAITING, `record_output` with the empty byte string still
updates `last_output_time`, exits to RUNNING with reason "output", and
leaves `last_visible_line` (and every other field) unchanged. -/
theorem record_output_empty_exits_waiting (st : WaitDetector) (now : ℚ)
    (h : st.state = .WAITING) :
    record_output st now [] =
      ({ st with
          lastOutputTime := now
          state := .RUNNING
          waitingSince := none },
       [Event.waitingExited now "output"]) := by
  simp [record_output, splitOnNl, firstQualifying, visibleOf, stripAnsiList,
    stripAnsiAux, pyStrip, _transition_to_running, h]

/-- C9 witness: the empty-output exit at a concrete WAITING detector. -/
theorem record_output_empty_exits_waiting_witness :
    record_output sampleDetC9 5 [] =
      ({ sampleDetC9 with
          lastOutputTime := 5
          state := .RUNNING
          waitingSince := none },
       [Event.waitingExited 5 "output"]) :=
  record_output_empty_exits_waiting sampleDetC9 5 rfl

/-- C10: the `pty_fd` argument of `check` has no influence: two calls from
the same detector state at the same time with the same blocked-state
query result agree on the returned boolean, the resulting detector and
the emitted events, for any two file descriptors. -/
theorem check_ignores_pty_fd (st : WaitDetector) (now : ℚ)
    (bs : BlockedState) (fd1 fd2 : Int) :
    check st fd1 now bs = check st fd2 now bs := rfl

end Waiting
